import Mathlib

/-!
Verification of the marimushka batch export orchestration engine.

This file gives a shallow embedding, in Lean 4, of the core of the
marimushka repository (src/marimushka): the notebook data model and
export-mode enumeration (notebook.py), the per-notebook conversion runner
(Notebook.export and its helpers), the result types (exceptions.py), the
batch scheduler (orchestrator.py), the worker-count validator
(security.py), and the top-level orchestration sequence (export.py,
function main_impl, written there as a function whose Python name starts
with an underscore).

Modelling conventions:
  * Filesystem paths are modelled as a pair of a folder string and a
    final-component name (PyPath).  The Python pathlib derivations
    suffix and stem are re-implemented faithfully on the name string
    (pySuffix, pyStem), including the corner case that a name whose only
    dot is its first character has an empty suffix.
  * Exceptions become Except values; a Python function that can raise
    is embedded as a total Lean function into Except.
  * Effectful collaborators (executable resolution, output-directory
    preparation, the converter subprocess, the Jinja2 render, the index
    file write, the template validation) are modelled as environment
    records describing the outcome the outside world produces.  An
    exception the source handles becomes a returned outcome; an
    exception the source has no handler for (a spawn-level OSError that
    is neither FileNotFoundError nor a SubprocessError) becomes the
    error branch of the Except returned by the embedded export, so the
    embedding distinguishes the conditions the conversion runner
    converts to results from the one it lets escape.
  * The security helper sanitize_error_message is kept abstract as a
    String to String parameter of the export environment: the claims
    under verification constrain how its output is embedded into
    messages, not its internals.
  * Python list.sort is a stable sort determined by the comparator, so
    its output is modelled by the structural stable sort
    List.insertionSort over the same comparator (code-point
    lexicographic order on names, as Python string comparison).
  * Filesystem effects of the orchestrator are recorded in an explicit
    event trace so that temporal claims (what was written, what was
    attempted, and in what phase) become statements about the trace.
-/

namespace Marimushka

/-- Python string comparison on lists of code points: lexicographic by
Char code point, as Python compares str values. -/
def charListLe : List Char → List Char → Bool
  | [], _ => true
  | _ :: _, [] => false
  | a :: as, b :: bs =>
    if a.toNat < b.toNat then true
    else if b.toNat < a.toNat then false
    else charListLe as bs

/-- Python string less-or-equal, by code points. -/
def strLe (a b : String) : Bool := charListLe a.data b.data

/-- Python slicing s[:n]: the first n characters of s. -/
def pyTake (s : String) (n : Nat) : String := ⟨s.data.take n⟩

/-- A filesystem path, reduced to the parent folder and the final
component; the Python code only ever derives name, stem and suffix of
the final component, and joins a folder with a name. -/
structure PyPath where
  folder : String
  name : String
deriving DecidableEq

/-- str(path) for the modelled two-component paths. -/
def PyPath.render (p : PyPath) : String := p.folder ++ "/" ++ p.name

/-- Index of the last occurrence of a character, counting from offset i;
models Python str.rfind restricted to a single character. -/
def lastIdxFrom (c : Char) : List Char → Nat → Option Nat
  | [], _ => none
  | x :: xs, i =>
    match lastIdxFrom c xs (i + 1) with
    | some j => some j
    | none => if x = c then some i else none

/-- Index of the last dot of a name, as Python name.rfind applied to a
dot character. -/
def lastDotIdx (name : String) : Option Nat := lastIdxFrom '.' name.data 0

/-- pathlib suffix of a final component: the part from the last dot on,
but only when that dot is neither the first nor the last character;
otherwise the empty string.  In particular the name consisting of a dot
followed by the letters p and y has an EMPTY suffix. -/
def pySuffix (name : String) : String :=
  match lastDotIdx name with
  | none => ""
  | some i => if 0 < i ∧ i < name.length - 1 then ⟨name.data.drop i⟩ else ""

/-- pathlib stem of a final component: the name with its suffix (as
defined by pySuffix) removed. -/
def pyStem (name : String) : String :=
  match lastDotIdx name with
  | none => name
  | some i => if 0 < i ∧ i < name.length - 1 then ⟨name.data.take i⟩ else name

/-- The enumeration of notebook export types (notebook.py, class Kind). -/
inductive Kind where
  | NB
  | NB_WASM
  | APP
deriving DecidableEq

/-- The string value of each Kind member. -/
def Kind.value : Kind → String
  | .NB => "notebook"
  | .NB_WASM => "notebook_wasm"
  | .APP => "app"

/-- Kind.from_str: parse a string into a Kind; an invalid string raises
ValueError with a message naming the value and listing the acceptable
kinds (modelled as the error branch of Except). -/
def Kind.from_str (value : String) : Except String Kind :=
  if value = "notebook" then .ok .NB
  else if value = "notebook_wasm" then .ok .NB_WASM
  else if value = "app" then .ok .APP
  else
    .error ("Invalid Kind: \x27" ++ value ++
      "\x27. Must be one of [\x27notebook\x27, \x27notebook_wasm\x27, \x27app\x27]")

/-- The converter sub-command for each Kind (property Kind.command). -/
def Kind.command : Kind → List String
  | .NB => ["marimo", "export", "html"]
  | .NB_WASM => ["marimo", "export", "html-wasm", "--mode", "edit"]
  | .APP => ["marimo", "export", "html-wasm", "--mode", "run", "--no-show-code"]

/-- The export errors that can be carried by a per-notebook result
(exceptions.py: ExportExecutableNotFoundError, ExportSubprocessError). -/
inductive ExportError where
  | executableNotFound (executable : String) (searchPath : Option String)
  | subprocess (notebookPath : PyPath) (command : List String)
      (returnCode : Int) (stdout : String) (stderr : String)
deriving DecidableEq

/-- The human-readable message built by each error constructor, as in
exceptions.py: the subprocess message embeds the first 200 characters of
the stderr argument when it is nonempty. -/
def ExportError.message : ExportError → String
  | .executableNotFound exe none =>
      "Executable \x27" ++ exe ++ "\x27 not found in PATH"
  | .executableNotFound exe (some p) =>
      "Executable \x27" ++ exe ++ "\x27 not found in " ++ p
  | .subprocess nbPath _ rc _ stderr =>
      let base := "Export failed for " ++ nbPath.name ++ " (exit code " ++ toString rc ++ ")"
      if stderr = "" then base else base ++ ": " ++ pyTake stderr 200

/-- The return code carried by an error, when it is a subprocess error. -/
def ExportError.returnCode : ExportError → Option Int
  | .executableNotFound _ _ => none
  | .subprocess _ _ rc _ _ => some rc

/-- Result of exporting a single notebook (exceptions.py,
NotebookExportResult, the ConversionOutcome of the specification). -/
structure NotebookExportResult where
  notebook_path : PyPath
  success : Bool
  output_path : Option PyPath
  error : Option ExportError
deriving DecidableEq

/-- Classmethod NotebookExportResult.succeeded. -/
def NotebookExportResult.succeeded (notebook_path : PyPath) (output_path : PyPath) :
    NotebookExportResult :=
  ⟨notebook_path, true, some output_path, none⟩

/-- Classmethod NotebookExportResult.failed. -/
def NotebookExportResult.failed (notebook_path : PyPath) (error : ExportError) :
    NotebookExportResult :=
  ⟨notebook_path, false, none, some error⟩

/-- The exclusivity invariant of a ConversionOutcome: success, absence
of error, and presence of output path are pairwise equivalent. -/
def NotebookExportResult.exclusive (r : NotebookExportResult) : Prop :=
  (r.success = true ↔ r.error = none) ∧ (r.error = none ↔ r.output_path.isSome = true)

/-- Errors raised by Notebook construction (exceptions.py:
NotebookNotFoundError, NotebookInvalidError). -/
inductive NotebookError where
  | notFound (path : PyPath)
  | invalid (path : PyPath) (reason : String)
deriving DecidableEq

/-- A marimo notebook: a path plus its export kind (notebook.py, class
Notebook). -/
structure Notebook where
  path : PyPath
  kind : Kind
deriving DecidableEq

/-- Notebook construction with the post-init validation: the path must
exist, be a regular file, and have the Python suffix; the existence and
regular-file facts about the path are passed in as the state of the
filesystem at construction time. -/
def Notebook.make (pathExists : Bool) (pathIsFile : Bool) (path : PyPath) (kind : Kind) :
    Except NotebookError Notebook :=
  if pathExists = false then .error (.notFound path)
  else if pathIsFile = false then .error (.invalid path "path is not a file")
  else if pySuffix path.name ≠ ".py" then .error (.invalid path "not a Python file")
  else .ok ⟨path, kind⟩

/-- Outcome of Notebook resolve-executable (the private resolver in
notebook.py): the executable string on success, or the two failure modes
(a bin path rejected by validate_bin_path, and an executable absent from
the validated bin path). -/
inductive ResolveResult where
  | ok (exe : String)
  | invalidBinPath (binPath : String)
  | notFound (executable : String) (searchPath : String)

/-- Outcome of preparing the output path (path traversal validation of
the output file, then recursive creation of the output directory). -/
inductive PrepareResult where
  | ok
  | traversalError (msg : String)
  | mkdirError (msg : String)

/-- Behaviour of the converter child process for one invocation:
completion with a return code and captured streams, a timeout, an
executable missing at spawn time (raised as FileNotFoundError), a
failure raised as subprocess.SubprocessError, or a spawn-level OSError
that is NEITHER FileNotFoundError NOR a SubprocessError — for example a
PermissionError when the resolved executable lacks the execute bit.
The source installs handlers for the first four; the osError case has
no handler in notebook.py and propagates out of the export call. -/
inductive SpawnResult where
  | completed (returnCode : Int) (stdout : String) (stderr : String)
  | timeoutExpired
  | fileNotFound (msg : String)
  | subprocessError (msg : String)
  | osError (msg : String)

/-- Everything the outside world decides during one Notebook.export
call, plus the sanitizer applied to error text before embedding. -/
structure ExportEnv where
  resolveExe : ResolveResult
  prepareOut : PrepareResult
  spawn : SpawnResult
  sanitize : String → String

/-- Whether executable resolution succeeded. -/
def ResolveResult.isOk : ResolveResult → Bool
  | .ok _ => true
  | _ => false

/-- Whether output-path preparation succeeded. -/
def PrepareResult.isOk : PrepareResult → Bool
  | .ok => true
  | _ => false

/-- Whether the child process completed with exit code zero. -/
def SpawnResult.isZeroExit : SpawnResult → Bool
  | .completed rc _ _ => rc = 0
  | _ => false

/-- The full converter command line built by Notebook build-command:
executable, mode sub-command, sandbox flag, source path, -o, output
path. -/
def buildCommand (exe : String) (kind : Kind) (sandbox : Bool) (src out : PyPath) :
    List String :=
  [exe] ++ kind.command ++ [if sandbox then "--sandbox" else "--no-sandbox"] ++
    [src.render, "-o", out.render]

/-- The output file computed for a notebook: output directory joined
with stem plus the html extension. -/
def outputFileFor (outputDir : String) (nb : Notebook) : PyPath :=
  ⟨outputDir, pyStem nb.path.name ++ ".html"⟩

/-- Notebook.export: resolve the executable, prepare the output path,
build the command and run the subprocess, converting each HANDLED
failure condition into a returned NotebookExportResult exactly as
notebook.py does.  The subprocess runner installs handlers only for
TimeoutExpired, FileNotFoundError and subprocess.SubprocessError; a
spawn-level OSError outside those (the osError environment, such as
PermissionError) has no handler and escapes the call — modelled by the
error branch of the returned Except, which carries the uncaught
exception text. -/
def Notebook.export (nb : Notebook) (outputDir : String) (sandbox : Bool)
    (timeout : Nat) (env : ExportEnv) : Except String NotebookExportResult :=
  match env.resolveExe with
  | .invalidBinPath binPath =>
      .ok (.failed nb.path (.executableNotFound "uvx" (some binPath)))
  | .notFound exe searchPath =>
      .ok (.failed nb.path (.executableNotFound exe (some searchPath)))
  | .ok exe =>
    let outputFile := outputFileFor outputDir nb
    match env.prepareOut with
    | .traversalError msg =>
        .ok (.failed nb.path (.subprocess nb.path [] (-1) ""
          ("Invalid output path: " ++ env.sanitize msg)))
    | .mkdirError msg =>
        .ok (.failed nb.path (.subprocess nb.path [] (-1) ""
          ("Failed to create output directory: " ++ env.sanitize msg)))
    | .ok =>
      let cmd := buildCommand exe nb.kind sandbox nb.path outputFile
      match env.spawn with
      | .completed rc stdout stderr =>
          if rc ≠ 0 then
            .ok (.failed nb.path (.subprocess nb.path cmd rc stdout (env.sanitize stderr)))
          else
            .ok (.succeeded nb.path outputFile)
      | .timeoutExpired =>
          .ok (.failed nb.path (.subprocess nb.path cmd (-1) ""
            ("Export timed out after " ++ toString timeout ++ " seconds")))
      | .fileNotFound _ =>
          .ok (.failed nb.path (.executableNotFound (cmd.headD "") none))
      | .subprocessError msg =>
          .ok (.failed nb.path (.subprocess nb.path cmd (-1) "" (env.sanitize msg)))
      | .osError msg =>
          .error msg

/-- Result of exporting multiple notebooks (exceptions.py,
BatchExportResult, the BatchReport of the specification). -/
structure BatchExportResult where
  results : List NotebookExportResult
deriving DecidableEq

/-- Property total: number of notebooks attempted. -/
def BatchExportResult.total (b : BatchExportResult) : Nat := b.results.length

/-- Property succeeded: the count, over the result sequence, of
successful outcomes. -/
def BatchExportResult.succeeded (b : BatchExportResult) : Nat :=
  b.results.countP (fun r => r.success)

/-- Property failed: the count, over the result sequence, of
unsuccessful outcomes. -/
def BatchExportResult.failed (b : BatchExportResult) : Nat :=
  b.results.countP (fun r => !r.success)

/-- Property all_succeeded: whether the failed count is zero. -/
def BatchExportResult.all_succeeded (b : BatchExportResult) : Bool :=
  b.failed == 0

/-- Property failures: the unsuccessful outcomes. -/
def BatchExportResult.failures (b : BatchExportResult) : List NotebookExportResult :=
  b.results.filter (fun r => !r.success)

/-- Property successes: the successful outcomes. -/
def BatchExportResult.successes (b : BatchExportResult) : List NotebookExportResult :=
  b.results.filter (fun r => r.success)

/-- Method add: append one result to the batch. -/
def BatchExportResult.add (b : BatchExportResult) (r : NotebookExportResult) :
    BatchExportResult :=
  ⟨b.results ++ [r]⟩

/-- orchestrator.py export_notebooks_sequential: run the per-notebook
export for each notebook in list order, appending each outcome to the
batch as it is produced.  The per-notebook export is abstracted as a
total function f giving the outcome of each unit: the scheduler model
covers the runs in which every export returns an outcome.  On the one
condition for which the runner instead raises (the uncaught spawn-level
OSError of the export embedding), the source scheduler would abort
mid-batch; that path is settled on the export embedding itself, not
re-modelled here. -/
def export_notebooks_sequential (f : Notebook → NotebookExportResult)
    (notebooks : List Notebook) : BatchExportResult :=
  notebooks.foldl (fun acc nb => acc.add (f nb)) ⟨[]⟩

/-- orchestrator.py export_notebooks_parallel: submit every notebook to
the worker pool and append outcomes in completion order.  The
nondeterministic completion order of the pool is an explicit argument;
a run of the real scheduler corresponds to a completionOrder that is a
permutation of the submitted list.  The empty submission list returns
the empty batch without touching the pool, as in the source.  The
source first clamps the requested worker count through
validate_max_workers; the pool size only bounds concurrency and cannot
change which outcomes are collected, so it is not a parameter here. -/
def export_notebooks_parallel (f : Notebook → NotebookExportResult)
    (notebooks : List Notebook) (completionOrder : List Notebook) : BatchExportResult :=
  if notebooks.isEmpty then ⟨[]⟩
  else completionOrder.foldl (fun acc nb => acc.add (f nb)) ⟨[]⟩

/-- security.py validate_max_workers: reject impossible constraint
arguments, then clamp the requested worker count into the closed
interval from min to max.  The Python default arguments are min 1 and
max 16. -/
def validate_max_workers (maxWorkers minWorkers maxAllowed : Int) : Except String Int :=
  if minWorkers < 1 then
    .error ("min_workers must be at least 1, got " ++ toString minWorkers)
  else if maxAllowed < minWorkers then
    .error ("max_allowed (" ++ toString maxAllowed ++ ") must be >= min_workers (" ++
      toString minWorkers ++ ")")
  else .ok (max minWorkers (min maxWorkers maxAllowed))

/-- A directory entry: final-component name and whether it is a regular
file (a subdirectory carries false). -/
abbrev FsEntry := String × Bool

/-- The directories visible to discovery: an association from folder
path to its entry listing; an absent key is a missing directory. -/
abbrev FileSystem := List (String × List FsEntry)

/-- Whether a name matches the glob star-dot-p-y used by discovery: the
star matches any (possibly empty) sequence of characters, so the match
is exactly a dot-p-y ending.  pathlib glob does not hide dot files. -/
def matchesPyGlob (name : String) : Bool := ".py".data.isSuffixOf name.data

/-- The entries of a directory matching the discovery glob. -/
def globPy (entries : List FsEntry) : List FsEntry :=
  entries.filter (fun e => matchesPyGlob e.1)

/-- The comparator under which discovery sorts: code-point order of the
entry names, as Python sorts paths sharing one parent folder. -/
def entryLe (a b : FsEntry) : Prop := strLe a.1 b.1 = true

instance : DecidableRel entryLe := fun a b => by
  unfold entryLe; infer_instance

/-- Python list.sort on the discovered paths: a stable sort by the
code-point order of names, modelled by the structural stable
insertion sort over the same comparator. -/
def sortEntries (entries : List FsEntry) : List FsEntry :=
  List.insertionSort entryLe entries

/-- The list comprehension of folder2notebooks: construct a Notebook per
discovered entry in order, the first construction failure aborting the
whole comprehension as a raised exception does. -/
def buildNotebooks (folder : String) (kind : Kind) :
    List FsEntry → Except NotebookError (List Notebook)
  | [] => .ok []
  | e :: rest =>
    match Notebook.make true e.2 ⟨folder, e.1⟩ kind with
    | .error err => .error err
    | .ok nb =>
      match buildNotebooks folder kind rest with
      | .error err => .error err
      | .ok nbs => .ok (nb :: nbs)

/-- notebook.py folder2notebooks: None or empty folder yields the empty
list; otherwise glob the directory (a missing directory globs to
nothing), sort, and build one Notebook per discovered path. -/
def folder2notebooks (fs : FileSystem) (folder : Option String) (kind : Kind) :
    Except NotebookError (List Notebook) :=
  match folder with
  | none => .ok []
  | some f =>
    if f = "" then .ok []
    else
      match fs.lookup f with
      | none => .ok []
      | some entries => buildNotebooks f kind (sortEntries (globPy entries))

/-- Outcome of template validation (export.py, the private validator):
success, the file-not-found failure, or one of the invalid-template
failures with its reason. -/
inductive TemplateCheck where
  | ok
  | notFound
  | invalid (reason : String)
deriving DecidableEq

/-- Everything the outside world decides during one orchestration run:
the template validation outcome, the Jinja2 render outcome, and the
index-file write outcome (none meaning the write succeeded, some
carrying the OS error text). -/
structure RunEnv where
  templateCheck : TemplateCheck
  render : Except String String
  writeIndexResult : Option String

/-- Run-level errors of the orchestration entry points (exceptions.py:
TemplateNotFoundError, TemplateInvalidError, TemplateRenderError,
IndexWriteError, and the notebook-construction errors surfaced by
discovery). -/
inductive RunError where
  | templateNotFound (path : String)
  | templateInvalid (path : String) (reason : String)
  | templateRender (path : String) (msg : String)
  | indexWrite (path : String) (msg : String)
  | notebook (e : NotebookError)
deriving DecidableEq

/-- Whether a run error is one of the two template-validation failures
raised by the validator before any conversion work. -/
def RunError.isTemplateValidationFailure : RunError → Bool
  | .templateNotFound _ => true
  | .templateInvalid _ _ => true
  | _ => false

/-- Observable filesystem-facing actions of one orchestration run, in
program order. -/
inductive Event where
  | mkdirOutput (dir : String)
  | exportAttempt (nb : PyPath)
  | templateRendered (template : String)
  | indexWritten (path : String)
deriving DecidableEq

/-- Whether an event writes to the filesystem: creating the output
directory, attempting a conversion (which prepares directories and
writes the artifact), and writing the index all do; rendering the
template in memory does not. -/
def Event.isFsWrite : Event → Bool
  | .mkdirOutput _ => true
  | .exportAttempt _ => true
  | .indexWritten _ => true
  | .templateRendered _ => false

/-- Whether an event is a conversion attempt. -/
def Event.isExportAttempt : Event → Bool
  | .exportAttempt _ => true
  | _ => false

/-- orchestrator.py generate_index (and its twin in export.py): attempt
every notebook of the three categories in category order, ensure the
output directory exists, render the template, then write the index
file; a render failure raises TemplateRenderError, a write failure
raises IndexWriteError, and only a successful write returns the
rendered HTML.  The individual conversion outcomes are recorded in the
batch report and never alter this control flow, so the trace records
each attempt without consulting its outcome. -/
def generate_index (env : RunEnv) (output templateFile : String)
    (notebooks apps notebooks_wasm : List Notebook) :
    Except RunError String × List Event :=
  let exportEvents := (notebooks ++ apps ++ notebooks_wasm).map
    (fun nb => Event.exportAttempt nb.path)
  let ev1 := exportEvents ++ [Event.mkdirOutput output]
  match env.render with
  | .error msg => (.error (.templateRender templateFile msg), ev1)
  | .ok html =>
    let ev2 := ev1 ++ [Event.templateRendered templateFile]
    match env.writeIndexResult with
    | some osError => (.error (.indexWrite (output ++ "/index.html") osError), ev2)
    | none => (.ok html, ev2 ++ [Event.indexWritten (output ++ "/index.html")])

/-- The effective output directory: export.py substitutes the default
site directory for an empty output argument. -/
def effectiveOutput (output : String) : String :=
  if output = "" then "_site" else output

/-- export.py main_impl: create the output directory, validate the
template (aborting on failure), discover the three categories, return
the empty string when nothing was discovered, and otherwise run
generate_index. -/
def main_impl (env : RunEnv) (fs : FileSystem) (output template : String)
    (notebooksDir appsDir wasmDir : Option String) :
    Except RunError String × List Event :=
  let out := effectiveOutput output
  let ev0 := [Event.mkdirOutput out]
  match env.templateCheck with
  | .notFound => (.error (.templateNotFound template), ev0)
  | .invalid reason => (.error (.templateInvalid template reason), ev0)
  | .ok =>
    match folder2notebooks fs notebooksDir Kind.NB with
    | .error e => (.error (.notebook e), ev0)
    | .ok notebooksData =>
      match folder2notebooks fs appsDir Kind.APP with
      | .error e => (.error (.notebook e), ev0)
      | .ok appsData =>
        match folder2notebooks fs wasmDir Kind.NB_WASM with
        | .error e => (.error (.notebook e), ev0)
        | .ok wasmData =>
          if notebooksData.isEmpty && appsData.isEmpty && wasmData.isEmpty then
            (.ok "", ev0)
          else
            let gi := generate_index env out template notebooksData appsData wasmData
            (gi.1, ev0 ++ gi.2)

/-- A concrete static notebook used by the scheduler witness. -/
def nbA : Notebook := ⟨⟨"notebooks", "a.py"⟩, .NB⟩

/-- A second concrete notebook used by the scheduler witness. -/
def nbB : Notebook := ⟨⟨"notebooks", "b.py"⟩, .NB⟩

/-- A concrete outcome function mixing one success and one failure,
used by the scheduler witness. -/
def mixedOutcome (nb : Notebook) : NotebookExportResult :=
  if nb = nbA then NotebookExportResult.succeeded nb.path ⟨"out", "a.html"⟩
  else NotebookExportResult.failed nb.path (.executableNotFound "uvx" none)

/-- A concrete export environment in which the subprocess exits with
code one and the stderr the end-to-end scenario uses, with the
sanitizer the identity (the stderr contains no path to redact). -/
def envNonzeroExit : ExportEnv := ⟨.ok "uvx", .ok, .completed 1 "" "boom", id⟩

/-- A concrete export environment in which the spawn raises a
PermissionError: a spawn-level OSError that is neither FileNotFoundError
nor a SubprocessError, for which notebook.py installs no handler. -/
def envOsErrorSpawn : ExportEnv := ⟨.ok "uvx", .ok, .osError "Permission denied", id⟩

/-- A concrete run environment whose render succeeds and whose index
write fails with an OS error. -/
def envWriteFails : RunEnv := ⟨.ok, .ok "HTML", some "disk full"⟩

/-- A concrete run environment in which everything succeeds. -/
def envAllOk : RunEnv := ⟨.ok, .ok "HTML", none⟩

/-- A concrete run environment whose template validation reports the
template file missing. -/
def envNoTemplate : RunEnv := ⟨.notFound, .ok "HTML", none⟩

/-- A directory holding a single regular file whose entire name is the
dot-p-y extension: it matches the discovery glob, yet pathlib assigns
it an empty suffix, so Notebook construction rejects it. -/
def fsDotPy : FileSystem := [("d", [(".py", true)])]

/-- A directory holding one well-formed notebook file. -/
def fsOneNotebook : FileSystem := [("d", [("a.py", true)])]

theorem foldl_add_results (f : Notebook → NotebookExportResult) (l : List Notebook)
    (init : List NotebookExportResult) :
    (l.foldl (fun (acc : BatchExportResult) nb => acc.add (f nb))
      (BatchExportResult.mk init)).results = init ++ l.map f := by
  induction l generalizing init with
  | nil => simp
  | cons x xs ih =>
    simp only [List.foldl_cons, List.map_cons]
    rw [show (BatchExportResult.mk init).add (f x) = BatchExportResult.mk (init ++ [f x]) from rfl]
    rw [ih (init ++ [f x])]
    simp

theorem countP_success_split (l : List NotebookExportResult) :
    l.countP (fun r => r.success) + l.countP (fun r => !r.success) = l.length := by
  induction l with
  | nil => rfl
  | cons x xs ih =>
    cases h : x.success <;> simp [List.countP_cons, h] <;> omega

theorem failed_exclusive (p : PyPath) (e : ExportError) :
    (NotebookExportResult.failed p e).exclusive := by
  simp [NotebookExportResult.failed, NotebookExportResult.exclusive]

theorem succeeded_exclusive (p out : PyPath) :
    (NotebookExportResult.succeeded p out).exclusive := by
  simp [NotebookExportResult.succeeded, NotebookExportResult.exclusive]

theorem export_exclusive (nb : Notebook) (outputDir : String) (sandbox : Bool)
    (timeout : Nat) (env : ExportEnv) (r : NotebookExportResult)
    (hr : Notebook.export nb outputDir sandbox timeout env = Except.ok r) :
    r.exclusive := by
  obtain ⟨re, po, sp, san⟩ := env
  cases re <;> cases po <;> cases sp <;>
    simp only [Notebook.export] at hr <;>
    (try split at hr) <;>
    first
      | (simp only [Except.ok.injEq] at hr; subst hr;
          first
            | exact failed_exclusive _ _
            | exact succeeded_exclusive _ _)
      | (simp at hr)

/-- Claim C5: for every ConversionOutcome, success, absence of error and
presence of an output path are pairwise equivalent; the pairing is
enforced by the two constructors succeeded and failed, and consequently
holds for every outcome the conversion runner returns. -/
theorem c5_outcome_exclusivity :
    (∀ (p : PyPath) (out : PyPath), (NotebookExportResult.succeeded p out).exclusive) ∧
    (∀ (p : PyPath) (e : ExportError), (NotebookExportResult.failed p e).exclusive) ∧
    (∀ (nb : Notebook) (outputDir : String) (sandbox : Bool) (timeout : Nat) (env : ExportEnv)
        (r : NotebookExportResult),
      Notebook.export nb outputDir sandbox timeout env = Except.ok r → r.exclusive) := by
  refine ⟨?_, ?_, ?_⟩
  · intro p out
    exact succeeded_exclusive p out
  · intro p e
    exact failed_exclusive p e
  · intro nb outputDir sandbox timeout env r hr
    exact export_exclusive nb outputDir sandbox timeout env r hr

/-- Witness for C5 at a concrete returned outcome: the non-zero-exit
environment returns a failure result, and that result satisfies the
exclusive pairing. -/
theorem c5_outcome_exclusivity_witness :
    (NotebookExportResult.failed nbA.path
      (.subprocess nbA.path
        ["uvx", "marimo", "export", "html", "--sandbox", "notebooks/a.py", "-o", "out/a.html"]
        1 "" "boom")).exclusive := by
  exact c5_outcome_exclusivity.2.2 nbA "out" true 300 envNonzeroExit
    (NotebookExportResult.failed nbA.path
      (.subprocess nbA.path
        ["uvx", "marimo", "export", "html", "--sandbox", "notebooks/a.py", "-o", "out/a.html"]
        1 "" "boom")) rfl

/-- Claim C6: the derived batch quantities are computed by counting over
the outcome sequence: total is the length, succeeded plus failed is
total, all_succeeded holds exactly when failed is zero, and the empty
report vacuously has all_succeeded. -/
theorem c6_batch_report_derived_counts :
    ∀ b : BatchExportResult,
      b.total = b.results.length ∧
      b.succeeded + b.failed = b.total ∧
      b.succeeded = b.results.countP (fun r => r.success) ∧
      b.failed = b.results.countP (fun r => !r.success) ∧
      (b.all_succeeded = true ↔ b.failed = 0) ∧
      (BatchExportResult.mk []).all_succeeded = true := by
  intro b
  refine ⟨rfl, countP_success_split b.results, rfl, rfl, ?_, rfl⟩
  simp [BatchExportResult.all_succeeded]

/-- Claim C8: the worker-count validator, at its default bounds, always
returns a value inside the closed interval from one to sixteen, and
returns the request unchanged when the request is already inside it. -/
theorem c8_worker_count_clamped :
    ∀ x : Int,
      validate_max_workers x 1 16 = .ok (max 1 (min x 16)) ∧
      1 ≤ max 1 (min x 16) ∧
      max 1 (min x 16) ≤ 16 ∧
      (1 ≤ x → x ≤ 16 → validate_max_workers x 1 16 = .ok x) := by
  intro x
  refine ⟨rfl, le_max_left 1 (min x 16), ?_, ?_⟩
  · omega
  · intro h1 h2
    have h : max 1 (min x 16) = x := by omega
    calc validate_max_workers x 1 16 = .ok (max 1 (min x 16)) := rfl
      _ = .ok x := by rw [h]

/-- Witness for C8 at concrete requests five (in range, returned
unchanged), one hundred (clamped down to sixteen) and minus three
(clamped up to one). -/
theorem c8_worker_count_clamped_witness :
    validate_max_workers 5 1 16 = .ok 5 ∧
    validate_max_workers 100 1 16 = .ok 16 ∧
    validate_max_workers (-3) 1 16 = .ok 1 := by
  refine ⟨(c8_worker_count_clamped 5).2.2.2 (by decide) (by decide), ?_, ?_⟩
  · have h := (c8_worker_count_clamped 100).1
    have e : max 1 (min (100 : Int) 16) = 16 := by omega
    rw [e] at h
    exact h
  · have h := (c8_worker_count_clamped (-3)).1
    have e : max 1 (min (-3 : Int) 16) = 1 := by omega
    rw [e] at h
    exact h

/-- Claim C10: the export-mode parser round-trips with the enumeration,
and every other string is rejected with a ValueError whose message
names the invalid value and lists the three acceptable kinds. -/
theorem c10_kind_roundtrip :
    (∀ k : Kind, Kind.from_str k.value = .ok k) ∧
    (∀ s : String, s ≠ "notebook" → s ≠ "notebook_wasm" → s ≠ "app" →
      Kind.from_str s =
        .error ("Invalid Kind: \x27" ++ s ++
          "\x27. Must be one of [\x27notebook\x27, \x27notebook_wasm\x27, \x27app\x27]")) := by
  constructor
  · intro k
    cases k <;> rfl
  · intro s h1 h2 h3
    simp [Kind.from_str, h1, h2, h3]

/-- Witness for C10 at the concrete invalid string the docstring example
uses. -/
theorem c10_kind_roundtrip_witness :
    Kind.from_str "invalid" =
      .error "Invalid Kind: \x27invalid\x27. Must be one of [\x27notebook\x27, \x27notebook_wasm\x27, \x27app\x27]" := by
  exact c10_kind_roundtrip.2 "invalid" (by decide) (by decide) (by decide)

/-- Claim C1: for every submitted list and every mix of per-unit
outcomes, both scheduler modes return a report with exactly one outcome
per submitted unit: the sequential report is exactly the outcome of
each unit in submission order, the parallel report (under any
completion order, which is a permutation of the submission list) is a
permutation of the per-unit outcomes, both have length equal to the
number of units, and every unit is attempted regardless of the failures
of the others. -/
theorem c1_batch_covers_every_unit :
    ∀ (f : Notebook → NotebookExportResult) (notebooks completionOrder : List Notebook),
      completionOrder.Perm notebooks →
      (export_notebooks_sequential f notebooks).results = notebooks.map f ∧
      (export_notebooks_sequential f notebooks).results.length = notebooks.length ∧
      (export_notebooks_parallel f notebooks completionOrder).results.length = notebooks.length ∧
      ((export_notebooks_parallel f notebooks completionOrder).results).Perm (notebooks.map f) ∧
      ∀ nb ∈ notebooks,
        f nb ∈ (export_notebooks_sequential f notebooks).results ∧
        f nb ∈ (export_notebooks_parallel f notebooks completionOrder).results := by
  intro f notebooks order hperm
  have hseq : (export_notebooks_sequential f notebooks).results = notebooks.map f := by
    simpa using foldl_add_results f notebooks []
  have hpar : ((export_notebooks_parallel f notebooks order).results).Perm (notebooks.map f) := by
    unfold export_notebooks_parallel
    by_cases h : notebooks.isEmpty
    · have hn : notebooks = [] := by simpa using h
      subst hn
      have ho : order = [] := List.perm_nil.mp hperm
      subst ho
      simp
    · rw [if_neg h]
      have hres : (order.foldl (fun (acc : BatchExportResult) nb => acc.add (f nb))
          (BatchExportResult.mk [])).results = order.map f := by
        simpa using foldl_add_results f order []
      rw [hres]
      exact hperm.map f
  refine ⟨hseq, by rw [hseq]; simp, ?_, hpar, ?_⟩
  · rw [hpar.length_eq]
    simp
  · intro nb hnb
    refine ⟨?_, ?_⟩
    · rw [hseq]
      exact List.mem_map_of_mem f hnb
    · exact hpar.mem_iff.mpr (List.mem_map_of_mem f hnb)

/-- Witness for C1: two units with one success and one failure,
submitted as a-then-b but completing as b-then-a. -/
theorem c1_batch_covers_every_unit_witness :
    (export_notebooks_sequential mixedOutcome [nbA, nbB]).results =
      [mixedOutcome nbA, mixedOutcome nbB] ∧
    (export_notebooks_parallel mixedOutcome [nbA, nbB] [nbB, nbA]).results.length = 2 ∧
    ((export_notebooks_parallel mixedOutcome [nbA, nbB] [nbB, nbA]).results).Perm
      [mixedOutcome nbA, mixedOutcome nbB] := by
  have h := c1_batch_covers_every_unit mixedOutcome [nbA, nbB] [nbB, nbA]
    (List.Perm.swap nbA nbB [])
  exact ⟨h.1, h.2.2.1, h.2.2.2.1⟩

/-- Claim C2 is a code bug: the subprocess runner installs handlers
only for TimeoutExpired, FileNotFoundError and
subprocess.SubprocessError, so a spawn-level OSError outside those —
for example a PermissionError when the resolved executable lacks the
execute bit — propagates out of Notebook.export uncaught, contradicting
the never-raises contract the result-type design, the docstrings (which
document only a returned result) and the specification state.  The
first two conjuncts evaluate the embedding at that failing input: the
export call ends in the uncaught-exception branch, not in a returned
outcome.  The remaining conjuncts record that the claimed behaviour
does hold at the scenario input for the handled non-zero-exit
condition: a returned tagged failure whose error carries return code
one and whose message embeds the stderr text, capped at two hundred
characters. -/
theorem c2_spawn_os_error_escapes_export :
    (∀ (nb : Notebook) (outputDir : String) (sandbox : Bool) (timeout : Nat)
        (exe msg : String) (san : String → String),
      Notebook.export nb outputDir sandbox timeout ⟨.ok exe, .ok, .osError msg, san⟩ =
        .error msg) ∧
    Notebook.export nbA "out" true 300 envOsErrorSpawn = .error "Permission denied" ∧
    Notebook.export nbA "out" true 300 envNonzeroExit =
      .ok (NotebookExportResult.failed nbA.path
        (.subprocess nbA.path
          ["uvx", "marimo", "export", "html", "--sandbox", "notebooks/a.py", "-o", "out/a.html"]
          1 "" "boom")) ∧
    ExportError.message (.subprocess nbA.path [] 1 "" "boom") =
      "Export failed for a.py (exit code 1): boom" ∧
    (pyTake "boom" 200).length ≤ 200 := by
  refine ⟨?_, rfl, rfl, rfl, by decide⟩
  intro nb outputDir sandbox timeout exe msg san
  rfl

theorem generate_index_error_not_validation (env : RunEnv) (output templateFile : String)
    (notebooks apps wasm : List Notebook) (e : RunError) :
    (generate_index env output templateFile notebooks apps wasm).1 = .error e →
    e.isTemplateValidationFailure = false := by
  unfold generate_index
  cases hr : env.render with
  | error msg =>
    intro h
    simp only [Except.error.injEq] at h
    subst h
    rfl
  | ok html =>
    cases hw : env.writeIndexResult with
    | some osError =>
      intro h
      simp only [Except.error.injEq] at h
      subst h
      rfl
    | none =>
      intro h
      simp at h

/-- Counterexample for C3: with a render that succeeds and an index
write that fails with an OS error, the index-generation operation does
not return the rendered HTML to its caller; it raises IndexWriteError
instead. -/
theorem c3_counterexample :
    envWriteFails.render = .ok "HTML" ∧
    (generate_index envWriteFails "out" "t.j2" [nbA] [] []).1 =
      .error (.indexWrite "out/index.html" "disk full") ∧
    (generate_index envWriteFails "out" "t.j2" [nbA] [] []).1 ≠ .ok "HTML" := by
  refine ⟨rfl, rfl, ?_⟩
  intro h
  simp [generate_index, envWriteFails] at h

/-- Claim C3 as amended: when the index write fails after a successful
render, generate_index raises IndexWriteError carrying the destination
path and does NOT return the rendered HTML; the template render and
every conversion attempt still took place, and no index file was
written. -/
theorem c3_amended_write_failure_raises :
    ∀ (env : RunEnv) (output templateFile : String)
      (notebooks apps wasm : List Notebook) (html osError : String),
      env.render = .ok html →
      env.writeIndexResult = some osError →
      (generate_index env output templateFile notebooks apps wasm).1 =
        .error (.indexWrite (output ++ "/index.html") osError) ∧
      (∀ nb ∈ notebooks ++ apps ++ wasm,
        Event.exportAttempt nb.path ∈
          (generate_index env output templateFile notebooks apps wasm).2) ∧
      Event.templateRendered templateFile ∈
        (generate_index env output templateFile notebooks apps wasm).2 ∧
      Event.indexWritten (output ++ "/index.html") ∉
        (generate_index env output templateFile notebooks apps wasm).2 := by
  intro env output templateFile notebooks apps wasm html osError hr hw
  have hmem : ∀ nb ∈ notebooks ++ apps ++ wasm,
      Event.exportAttempt nb.path ∈
        (generate_index env output templateFile notebooks apps wasm).2 := by
    intro nb hnb
    have h := List.mem_map_of_mem (fun x : Notebook => Event.exportAttempt x.path) hnb
    unfold generate_index
    rw [hr, hw]
    exact List.mem_append_left _ (List.mem_append_left _ h)
  refine ⟨?_, hmem, ?_, ?_⟩ <;> unfold generate_index <;> rw [hr, hw] <;> simp

/-- Witness for C3 as amended, at the concrete failing environment. -/
theorem c3_amended_write_failure_raises_witness :
    (generate_index envWriteFails "out" "t.j2" [nbA] [] []).1 =
      .error (.indexWrite "out/index.html" "disk full") ∧
    Event.exportAttempt nbA.path ∈ (generate_index envWriteFails "out" "t.j2" [nbA] [] []).2 := by
  have h := c3_amended_write_failure_raises envWriteFails "out" "t.j2" [nbA] [] []
    "HTML" "disk full" rfl rfl
  exact ⟨h.1, h.2.1 nbA (by simp)⟩

/-- Counterexample for C4: with nothing discovered the orchestration
entry point returns the empty string and writes no index, but it is not
true that it performs no filesystem writes: the output directory is
created (before template validation and discovery) even on the empty
run. -/
theorem c4_counterexample :
    (main_impl envAllOk [] "out" "t.j2" (some "n") (some "a") (some "w")).1 = .ok "" ∧
    Event.mkdirOutput "out" ∈
      (main_impl envAllOk [] "out" "t.j2" (some "n") (some "a") (some "w")).2 ∧
    ((main_impl envAllOk [] "out" "t.j2" (some "n") (some "a") (some "w")).2.any
      Event.isFsWrite) = true := by
  refine ⟨rfl, ?_, rfl⟩
  simp [main_impl, envAllOk, folder2notebooks, effectiveOutput]

/-- Claim C4 as amended: when template validation passes and all three
discovery calls return empty lists, the entry point returns the empty
string (not an error), attempts no conversion, renders nothing and
writes no index file; its only filesystem effect is the unconditional
creation of the output directory. -/
theorem c4_amended_empty_discovery :
    ∀ (env : RunEnv) (fs : FileSystem) (output template : String)
      (nDir aDir wDir : Option String),
      env.templateCheck = .ok →
      folder2notebooks fs nDir Kind.NB = .ok [] →
      folder2notebooks fs aDir Kind.APP = .ok [] →
      folder2notebooks fs wDir Kind.NB_WASM = .ok [] →
      main_impl env fs output template nDir aDir wDir =
        (.ok "", [Event.mkdirOutput (effectiveOutput output)]) := by
  intro env fs output template nDir aDir wDir hT h1 h2 h3
  unfold main_impl
  rw [hT, h1, h2, h3]
  simp

/-- Witness for C4 as amended: an empty filesystem with the three
default-style directories. -/
theorem c4_amended_empty_discovery_witness :
    main_impl envAllOk [] "out" "t.j2" (some "nb") (some "ap") (some "wa") =
      (.ok "", [Event.mkdirOutput "out"]) := by
  exact c4_amended_empty_discovery envAllOk [] "out" "t.j2"
    (some "nb") (some "ap") (some "wa") rfl rfl rfl rfl

/-- Claim C9: whenever the orchestration entry point raises the
template-not-found or template-invalid error, no conversion was
attempted: template validation strictly precedes discovery and export
in the orchestration sequence. -/
theorem c9_template_validation_precedes_export :
    ∀ (env : RunEnv) (fs : FileSystem) (output template : String)
      (nDir aDir wDir : Option String) (e : RunError),
      (main_impl env fs output template nDir aDir wDir).1 = .error e →
      e.isTemplateValidationFailure = true →
      ((main_impl env fs output template nDir aDir wDir).2.any Event.isExportAttempt) = false := by
  intro env fs output template nDir aDir wDir e herr hkind
  cases hT : env.templateCheck with
  | notFound => simp [main_impl, hT, Event.isExportAttempt]
  | invalid reason => simp [main_impl, hT, Event.isExportAttempt]
  | ok =>
    cases h1 : folder2notebooks fs nDir Kind.NB with
    | error e1 =>
      simp only [main_impl, hT, h1, Except.error.injEq] at herr
      subst herr
      simp [RunError.isTemplateValidationFailure] at hkind
    | ok notebooksData =>
      cases h2 : folder2notebooks fs aDir Kind.APP with
      | error e2 =>
        simp only [main_impl, hT, h1, h2, Except.error.injEq] at herr
        subst herr
        simp [RunError.isTemplateValidationFailure] at hkind
      | ok appsData =>
        cases h3 : folder2notebooks fs wDir Kind.NB_WASM with
        | error e3 =>
          simp only [main_impl, hT, h1, h2, h3, Except.error.injEq] at herr
          subst herr
          simp [RunError.isTemplateValidationFailure] at hkind
        | ok wasmData =>
          by_cases hempty : (notebooksData.isEmpty && appsData.isEmpty && wasmData.isEmpty) = true
          · simp only [main_impl, hT, h1, h2, h3, if_pos hempty] at herr
            simp at herr
          · simp only [main_impl, hT, h1, h2, h3, if_neg hempty] at herr
            have hnv := generate_index_error_not_validation env (effectiveOutput output) template
              notebooksData appsData wasmData e herr
            rw [hnv] at hkind
            cases hkind

/-- Witness for C9: a concrete run whose template validation reports
the template missing; the result is the template-not-found error and
the trace holds no conversion attempt. -/
theorem c9_template_validation_precedes_export_witness :
    (main_impl envNoTemplate [] "out" "t.j2" (some "n") (some "a") (some "w")).1 =
      .error (.templateNotFound "t.j2") ∧
    ((main_impl envNoTemplate [] "out" "t.j2" (some "n") (some "a") (some "w")).2.any
      Event.isExportAttempt) = false := by
  refine ⟨rfl, ?_⟩
  exact c9_template_validation_precedes_export envNoTemplate [] "out" "t.j2"
    (some "n") (some "a") (some "w") (.templateNotFound "t.j2") rfl rfl

theorem charListLe_cons (x y : Char) (xs ys : List Char) :
    charListLe (x :: xs) (y :: ys) = true ↔
      x.toNat < y.toNat ∨ (x.toNat = y.toNat ∧ charListLe xs ys = true) := by
  by_cases h1 : x.toNat < y.toNat
  · simp [charListLe, h1]
  · by_cases h2 : y.toNat < x.toNat
    · simp only [charListLe, if_neg h1, if_pos h2]
      constructor
      · intro h
        cases h
      · intro h
        rcases h with h | ⟨h, _⟩
        · omega
        · omega
    · have heq : x.toNat = y.toNat := by omega
      simp [charListLe, h1, h2, heq]

theorem charListLe_trans (a : List Char) :
    ∀ b c, charListLe a b = true → charListLe b c = true → charListLe a c = true := by
  induction a with
  | nil => intro b c _ _; rfl
  | cons x xs ih =>
    intro b c h1 h2
    cases b with
    | nil => simp [charListLe] at h1
    | cons y ys =>
      cases c with
      | nil => simp [charListLe] at h2
      | cons z zs =>
        rw [charListLe_cons] at h1 h2 ⊢
        rcases h1 with h1 | ⟨hxy, h1⟩
        · rcases h2 with h2 | ⟨hyz, h2⟩
          · left; omega
          · left; omega
        · rcases h2 with h2 | ⟨hyz, h2⟩
          · left; omega
          · exact Or.inr ⟨by omega, ih ys zs h1 h2⟩

theorem charListLe_total (a : List Char) :
    ∀ b, charListLe a b = true ∨ charListLe b a = true := by
  induction a with
  | nil => intro b; left; rfl
  | cons x xs ih =>
    intro b
    cases b with
    | nil => right; rfl
    | cons y ys =>
      rw [charListLe_cons, charListLe_cons]
      rcases Nat.lt_trichotomy x.toNat y.toNat with h | h | h
      · exact Or.inl (Or.inl h)
      · rcases ih ys with h2 | h2
        · exact Or.inl (Or.inr ⟨h, h2⟩)
        · exact Or.inr (Or.inr ⟨h.symm, h2⟩)
      · exact Or.inr (Or.inl h)

theorem entryLe_trans : ∀ a b c : FsEntry, entryLe a b → entryLe b c → entryLe a c := by
  intro a b c h1 h2
  exact charListLe_trans a.1.data b.1.data c.1.data h1 h2

theorem entryLe_total : ∀ a b : FsEntry, entryLe a b ∨ entryLe b a := by
  intro a b
  exact charListLe_total a.1.data b.1.data

theorem buildNotebooks_ok (folder : String) (kind : Kind) :
    ∀ l : List FsEntry, (∀ e ∈ l, e.2 = true ∧ pySuffix e.1 = ".py") →
      buildNotebooks folder kind l =
        .ok (l.map (fun e => Notebook.mk ⟨folder, e.1⟩ kind)) := by
  intro l
  induction l with
  | nil => intro _; rfl
  | cons e rest ih =>
    intro h
    have he := h e (by simp)
    have hr := ih (fun x hx => h x (List.mem_cons_of_mem e hx))
    simp [buildNotebooks, Notebook.make, he.1, he.2, hr]

/-- Counterexample for C7: a directory containing exactly one matching
file, namely a regular file whose entire name is the dot-p-y extension,
makes discovery raise NotebookInvalidError instead of returning a
one-unit list: the glob matches the name, but pathlib gives it an empty
suffix, so the Notebook constructor rejects it. -/
theorem c7_counterexample :
    (globPy [(".py", true)]).length = 1 ∧
    folder2notebooks fsDotPy (some "d") Kind.NB =
      .error (.invalid ⟨"d", ".py"⟩ "not a Python file") := by
  constructor
  · rfl
  · rfl

/-- Claim C7 as amended: a None folder, an empty-string folder, or a
missing directory yields the empty list rather than an error; and for
every directory all of whose glob-matching entries are regular files
carrying the Python suffix (which excludes a file named exactly by the
extension and a subdirectory matching the glob), discovery returns one
unit per matching file, sorted lexicographically by filename, every
unit carrying the requested kind and the scanned folder. -/
theorem c7_amended_discovery :
    ∀ (fs : FileSystem) (kind : Kind),
      (folder2notebooks fs none kind = .ok []) ∧
      (folder2notebooks fs (some "") kind = .ok []) ∧
      (∀ f : String, f ≠ "" → fs.lookup f = none →
        folder2notebooks fs (some f) kind = .ok []) ∧
      (∀ (f : String) (entries : List FsEntry), f ≠ "" →
        fs.lookup f = some entries →
        (∀ e ∈ globPy entries, e.2 = true ∧ pySuffix e.1 = ".py") →
        ∃ L, folder2notebooks fs (some f) kind = .ok L ∧
          L.length = (globPy entries).length ∧
          List.Pairwise (fun a b : Notebook => strLe a.path.name b.path.name = true) L ∧
          (L.map (fun nb => nb.path.name)).Perm ((globPy entries).map (fun e => e.1)) ∧
          (∀ nb ∈ L, nb.kind = kind ∧ nb.path.folder = f)) := by
  intro fs kind
  refine ⟨rfl, rfl, ?_, ?_⟩
  · intro f hf hlook
    simp [folder2notebooks, hf, hlook]
  · intro f entries hf hlook hclean
    have hperm : (sortEntries (globPy entries)).Perm (globPy entries) :=
      List.perm_insertionSort entryLe (globPy entries)
    have hcleanSorted : ∀ e ∈ sortEntries (globPy entries), e.2 = true ∧ pySuffix e.1 = ".py" :=
      fun e he => hclean e (hperm.mem_iff.mp he)
    have hbuild := buildNotebooks_ok f kind (sortEntries (globPy entries)) hcleanSorted
    refine ⟨(sortEntries (globPy entries)).map (fun e => Notebook.mk ⟨f, e.1⟩ kind), ?_, ?_, ?_, ?_, ?_⟩
    · simp [folder2notebooks, hf, hlook, hbuild]
    · rw [List.length_map]
      exact hperm.length_eq
    · have hsorted : List.Pairwise entryLe (sortEntries (globPy entries)) := by
        haveI : IsTotal FsEntry entryLe := ⟨entryLe_total⟩
        haveI : IsTrans FsEntry entryLe := ⟨entryLe_trans⟩
        exact List.sorted_insertionSort entryLe (globPy entries)
      exact List.Pairwise.map _ (fun a b hab => hab) hsorted
    · rw [List.map_map]
      exact hperm.map (fun e => e.1)
    · intro nb hnb
      rcases List.mem_map.mp hnb with ⟨e, _, rfl⟩
      exact ⟨rfl, rfl⟩

/-- Witness for C7 as amended: a directory of one well-formed notebook
file yields exactly one sorted unit. -/
theorem c7_amended_discovery_witness :
    ∃ L, folder2notebooks fsOneNotebook (some "d") Kind.NB = .ok L ∧ L.length = 1 := by
  obtain ⟨L, hok, hlen, -, -, -⟩ :=
    (c7_amended_discovery fsOneNotebook Kind.NB).2.2.2 "d" [("a.py", true)]
      (by decide) rfl (by decide)
  exact ⟨L, hok, by simpa using hlen⟩
